import Mathlib

/-
Verification development for the gvcf_parser_rs sources.

Shallow embedding conventions:
* Rust strings are modelled as `List Char` (named `Str` below); the helper
  functions (`splitChar`, `splitnChar`, `splitPred`, `startsWith`, `trimEnd`)
  reproduce the semantics of the corresponding Rust `str` methods for the
  single-character separators the sources use.
* `u32`/`i32` parsing (`str::parse`) is modelled by `parseU32`/`parseI32`:
  an optional sign followed by one or more ASCII digits, with the numeric
  value required to fit the machine range.  (Rust checks overflow digit by
  digit, but since the accumulated magnitude grows monotonically this is
  equivalent to one final range check.)
* `f32` values are not modelled; the quality column is kept as the validated
  source text (`none` encodes the NaN produced by the "." placeholder).
  `parseF32ok` models the acceptance grammar of `f32::from_str`.
* Indexing a `Vec` out of bounds panics in Rust; such writes are modelled by
  `Option`/`panicked` outcomes rather than silent no-ops.
* The `crate::errors` module is not present under src/; the `VcfParseError`
  inductive below reproduces the enum of src/src/lib.rs plus the extra
  variants used by src/src/region_splitter.rs, with payloads as at the use
  sites.  `MagicByteError` follows src/src/utils_magic.rs.
* The line readers are modelled by a list of lines, each line carrying its
  terminating newline exactly as `BufRead::read_line` returns it.
-/

deriving instance DecidableEq for Except

namespace GvcfParserRs

/-- Rust strings, modelled as lists of characters. -/
abbrev Str := List Char

/-- Accumulator-based core of `splitChar`. -/
def splitCharAux (sep : Char) : Str → Str → List Str
  | acc, [] => [acc.reverse]
  | acc, c :: cs =>
    if c = sep then acc.reverse :: splitCharAux sep [] cs
    else splitCharAux sep (c :: acc) cs

/-- Rust `str::split(sep)` for a one-character separator: splits at every
occurrence of `sep`, keeping empty pieces, and yields `[""]` on the empty
string. -/
def splitChar (sep : Char) (s : Str) : List Str := splitCharAux sep [] s

/-- Accumulator-based core of `splitPred`. -/
def splitPredAux (p : Char → Bool) : Str → Str → List Str
  | acc, [] => [acc.reverse]
  | acc, c :: cs =>
    if p c then acc.reverse :: splitPredAux p [] cs
    else splitPredAux p (c :: acc) cs

/-- Rust `str::split` with a character predicate (used for the `/`-or-`|`
genotype separators). -/
def splitPred (p : Char → Bool) (s : Str) : List Str := splitPredAux p [] s

/-- Accumulator-based core of `splitnChar`; the first argument counts the
splits still allowed. -/
def splitnCharAux (sep : Char) : Nat → Str → Str → List Str
  | _, acc, [] => [acc.reverse]
  | 0, acc, c :: cs => splitnCharAux sep 0 (c :: acc) cs
  | k + 1, acc, c :: cs =>
    if c = sep then acc.reverse :: splitnCharAux sep k [] cs
    else splitnCharAux sep (k + 1) (c :: acc) cs

/-- Rust `str::splitn(n, sep)`: at most `n` pieces; the last piece keeps the
rest of the string, separators included. -/
def splitnChar (n : Nat) (sep : Char) (s : Str) : List Str :=
  match n with
  | 0 => []
  | k + 1 => splitnCharAux sep k [] s

/-- Rust `str::starts_with`. -/
def startsWith : Str → Str → Bool
  | _, [] => true
  | [], _ :: _ => false
  | c :: cs, p :: ps => c = p && startsWith cs ps

/-- Whitespace as relevant to the ASCII input lines handled here (Rust
`char::is_whitespace` restricted to the characters that can occur). -/
def isWhitespaceChar (c : Char) : Bool :=
  c = ' ' || c = '\t' || c = '\n' || c = '\r'

/-- Rust `str::trim_end`. -/
def trimEnd (s : Str) : Str := (s.reverse.dropWhile isWhitespaceChar).reverse

/-- ASCII digit test. -/
def isDigitChar (c : Char) : Bool := '0' ≤ c && c ≤ '9'

/-- Numeric value of a digit string, most significant digit first. -/
def digitsVal (cs : Str) : Nat := cs.foldl (fun a c => 10 * a + (c.toNat - 48)) 0

/-- Rust `str::parse::<u32>`: an optional leading `+`, then one or more
digits, value below `2^32`. -/
def parseU32 (s : Str) : Option Nat :=
  let ds := match s with
    | '+' :: rest => rest
    | _ => s
  if ds.isEmpty then none
  else if ds.all isDigitChar && digitsVal ds < 4294967296 then some (digitsVal ds)
  else none

/-- Rust `str::parse::<i32>`: an optional leading `+` or `-`, then one or
more digits, value within the i32 range. -/
def parseI32 (s : Str) : Option Int :=
  let signAndDigits : Bool × Str := match s with
    | '+' :: rest => (false, rest)
    | '-' :: rest => (true, rest)
    | _ => (false, s)
  let neg := signAndDigits.1
  let ds := signAndDigits.2
  if ds.isEmpty then none
  else if !ds.all isDigitChar then none
  else if neg then
    if digitsVal ds ≤ 2147483648 then some (-(digitsVal ds : Int)) else none
  else
    if digitsVal ds ≤ 2147483647 then some (digitsVal ds : Int) else none

/-- Splits a string at the first character satisfying `p`; the second
component is `none` when no character matches. -/
def splitFirst (p : Char → Bool) : Str → Str × Option Str
  | [] => ([], none)
  | c :: cs =>
    if p c then ([], some cs)
    else
      let r := splitFirst p cs
      (c :: r.1, r.2)

/-- Acceptance grammar of Rust `str::parse::<f32>`: an optional sign, then
(case-insensitively) `inf`, `infinity`, `nan`, or a decimal mantissa with an
optional exponent. -/
def parseF32ok (s : Str) : Bool :=
  let body := match s with
    | '+' :: rest => rest
    | '-' :: rest => rest
    | _ => s
  let lower := body.map Char.toLower
  if lower = ("inf".data) || lower = ("infinity".data) || lower = ("nan".data) then true
  else
    let mantExp := splitFirst (fun c => c = 'e' || c = 'E') body
    let mantOk :=
      let intFrac := splitFirst (fun c => c = '.') mantExp.1
      match intFrac.2 with
      | none => !intFrac.1.isEmpty && intFrac.1.all isDigitChar
      | some f =>
        intFrac.1.all isDigitChar && f.all isDigitChar &&
          !(intFrac.1.isEmpty && f.isEmpty)
    let expPartOk :=
      match mantExp.2 with
      | none => true
      | some e =>
        let eds := match e with
          | '+' :: rest => rest
          | '-' :: rest => rest
          | _ => e
        !eds.isEmpty && eds.all isDigitChar
    mantOk && expPartOk

/-- The `VcfParseError` enum (src/src/lib.rs) together with the variants of
the missing `crate::errors` module that src/src/region_splitter.rs uses;
payload fields follow the construction sites. -/
inductive VcfParseError
  | InvalidAllele (allele : Str)
  | NotEnoughColumns (line : Str)
  | NotEnoughColumnsInChromLine
  | InvalidPosition (value : Str) (line : Str)
  | InvalidQuality (value : Str) (line : Str)
  | MissingGtField (sample : Str) (line : Str)
  | FormatColumnNotFound (line : Str)
  | MissingGtFieldInFormat (line : Str)
  | ErrorFindingPloidy (line : Str)
  | InconsistentPloidies (line : Str)
  | DifferentObservedPloidy (line : Str) (observed : Nat) (given : Nat)
  | BrokenHeader
  | InvariantgVCFLine
  | GVCFLineNotEnoughFields
  | RuntimeError (message : Str)
  deriving DecidableEq, Repr

/-- The `MagicByteError` enum of src/src/utils_magic.rs. -/
inductive MagicByteError
  | InsufficientBytes (got : Nat) (need : Nat)
  | FileIsNotGzipped (path : Str)
  | ProblemOpeningFile (path : Str)
  | ProblemFillingBuffer (path : Str)
  deriving DecidableEq, Repr

/-- src/src/utils_magic.rs `are_gzipped_magic_bytes`.  Bytes are natural
numbers; the two indexings are in bounds because the length guard has been
passed, so `getD` coincides with Rust's panicking index. -/
def are_gzipped_magic_bytes (first_bytes : List Nat) : Except MagicByteError Bool :=
  if first_bytes.length < 2 then
    .error (.InsufficientBytes first_bytes.length 2)
  else
    .ok ((first_bytes.getD 0 0 == 0x1f) && (first_bytes.getD 1 0 == 0x8b))

/-- The `NON_REF` constant of src/src/region_splitter.rs. -/
def NON_REF : Str := "<NON_REF>".data

/-- The `GVcfRecord` struct of src/src/region_splitter.rs (`pos` is a u32). -/
structure GVcfRecord where
  chrom : Str
  pos : Nat
  alleles : List Str
  deriving DecidableEq, Repr

/-- Rust `Option::ok_or`, specialised to the error type of the sources. -/
def orErr {α : Type} (o : Option α) (e : VcfParseError) : Except VcfParseError α :=
  match o with
  | some a => .ok a
  | none => .error e

/-- src/src/region_splitter.rs `GVcfRecord::from_line`.  `splitn(6, '\t')`
is modelled by `splitnChar 6 '\t'`; the third call to `fields.next()` (the ID
column) discards its value, so only indices 0, 1, 3, 4 are demanded. -/
def GVcfRecord.from_line (line : Str) : Except VcfParseError GVcfRecord := do
  let fields := splitnChar 6 '\t' line
  let chrom ← orErr (fields.get? 0) .GVCFLineNotEnoughFields
  let posStr ← orErr (fields.get? 1) .GVCFLineNotEnoughFields
  let ref_allele ← orErr (fields.get? 3) .GVCFLineNotEnoughFields
  let alt_alleles ← orErr (fields.get? 4) .GVCFLineNotEnoughFields
  if alt_alleles = NON_REF then
    throw .InvariantgVCFLine
  let pos ← orErr (parseU32 posStr) .GVCFLineNotEnoughFields
  let alleles := (ref_allele :: splitChar ',' alt_alleles).filter (fun a => a ≠ NON_REF)
  return ⟨chrom, pos, alleles⟩

/-- The two parse sections of the state machines. -/
inductive VcfSection
  | Header
  | Body
  deriving DecidableEq, Repr

/-- A meta-header line starts with this two-character marker. -/
def metaMarker : Str := "##".data

/-- The column-header line starts with this marker. -/
def chromMarker : Str := "#CHROM".data

/-- State of `GVcfRecordIterator` (src/src/region_splitter.rs): the lines the
underlying reader has yet to deliver, the current section, and the lookahead
buffer (front of the list = front of the `VecDeque`, i.e. oldest record). -/
structure GVcfIterState where
  lines : List Str
  sec : VcfSection
  buffer : List GVcfRecord
  deriving DecidableEq, Repr

/-- `GVcfRecordIterator::new` via `from_reader`: reading starts in the
`Header` section with an empty buffer. -/
def GVcfIterState.init (lines : List Str) : GVcfIterState := ⟨lines, .Header, []⟩

/-- Outcome of one `Iterator::next` call on the gVCF iterator
(`Option<VcfResult<GVcfRecord>>`), plus `diverged` for a run of the header
loop that never terminates (see `gHeaderLoop`). -/
inductive GNext
  | eof
  | ok (r : GVcfRecord)
  | error (e : VcfParseError)
  | diverged
  deriving DecidableEq, Repr

/-- Injection of `GVcfRecord::from_line`'s result into a `next` outcome. -/
def gResultToNext : Except VcfParseError GVcfRecord → GNext
  | .ok r => .ok r
  | .error e => .error e

/-- The body of `GVcfRecordIterator::process_header_and_first_variant`
(src/src/region_splitter.rs lines 96-120).  Its `loop` only reads a new line
when the current line starts with `##`; when it does not, the loop body is a
no-op and the loop repeats with unchanged state, so the call never returns.
`fuel` counts loop iterations and the exhausted-fuel result `diverged` marks
exactly those non-terminating runs.  After the loop breaks, the line just
read is cleared and one further line is read and decoded as the first record
(EOF there yields `None` with the section still `Header`; on a decoded line
the section becomes `Body` first).  Returns the call's result together with
the remaining lines and the section. -/
def gHeaderLoop : Nat → Str → List Str → GNext × List Str × VcfSection
  | 0, _, rest => (.diverged, rest, .Header)
  | fuel + 1, line, rest =>
    if startsWith line metaMarker then
      match rest with
      | [] => (.error .BrokenHeader, [], .Header)
      | l :: ls =>
        if startsWith l metaMarker then
          gHeaderLoop fuel l ls
        else
          match ls with
          | [] => (.eof, [], .Header)
          | l2 :: ls2 => (gResultToNext (GVcfRecord.from_line l2), ls2, .Body)
    else
      gHeaderLoop fuel line rest

/-- `Iterator::next` for `GVcfRecordIterator` (src/src/region_splitter.rs
lines 205-220): clear the line, read one line (EOF yields `None`), then in
`Body` decode it directly and in `Header` run the header-processing call.
The lookahead buffer is not consulted. -/
def GVcfIterState.next (fuel : Nat) (s : GVcfIterState) : GNext × GVcfIterState :=
  match s.lines with
  | [] => (.eof, s)
  | l :: ls =>
    match s.sec with
    | .Body => (gResultToNext (GVcfRecord.from_line l), ⟨ls, s.sec, s.buffer⟩)
    | .Header =>
      let r := gHeaderLoop fuel l ls
      (r.1, ⟨r.2.1, r.2.2, s.buffer⟩)

/-- Result of `GVcfRecordIterator::fill_buffer` (`VcfResult<usize>`), plus
`diverged` for runs that never terminate. -/
inductive FillResult
  | ok (n_items_added : Nat)
  | error (e : VcfParseError)
  | diverged
  deriving DecidableEq, Repr

/-- The `while` loop of `GVcfRecordIterator::fill_buffer`
(src/src/region_splitter.rs lines 121-151).  Each iteration reads a line
(EOF breaks the loop, returning the count); in the `Header` section the
header-processing call runs and only a `Some(Ok(record))` result is kept —
a `Some(Err(_))` or `None` result is silently dropped by the
`if let Some(Ok(record))` pattern; in `Body` the line is decoded, invariant
lines are skipped, other errors are returned. -/
def fillBufferLoop : Nat → Nat → Nat → GVcfIterState → FillResult × GVcfIterState
  | 0, _, _, s => (.diverged, s)
  | fuel + 1, n_items, n_items_added, s =>
    if s.buffer.length < n_items then
      match s.lines with
      | [] => (.ok n_items_added, s)
      | l :: ls =>
        match s.sec with
        | .Header =>
          let r := gHeaderLoop fuel l ls
          match r.1 with
          | .ok record =>
            fillBufferLoop fuel n_items (n_items_added + 1) ⟨r.2.1, r.2.2, s.buffer ++ [record]⟩
          | .diverged => (.diverged, ⟨r.2.1, r.2.2, s.buffer⟩)
          | _ => fillBufferLoop fuel n_items n_items_added ⟨r.2.1, r.2.2, s.buffer⟩
        | .Body =>
          match GVcfRecord.from_line l with
          | .ok record =>
            fillBufferLoop fuel n_items (n_items_added + 1) ⟨ls, s.sec, s.buffer ++ [record]⟩
          | .error .InvariantgVCFLine =>
            fillBufferLoop fuel n_items n_items_added ⟨ls, s.sec, s.buffer⟩
          | .error e => (.error e, ⟨ls, s.sec, s.buffer⟩)
    else
      (.ok n_items_added, s)

/-- `GVcfRecordIterator::fill_buffer(n_items)`: runs the loop with the added
count starting at 0. -/
def GVcfIterState.fill_buffer (fuel n_items : Nat) (s : GVcfIterState) :
    FillResult × GVcfIterState :=
  fillBufferLoop fuel n_items 0 s

/-- Wrap-around of unsigned 32-bit arithmetic. -/
def wrap32 (n : Nat) : Nat := n % 4294967296

/-- src/src/region_splitter.rs `GVcfRecord::get_span`.  The expression
`self.pos + max_allele_len as u32 - 1` is u32 arithmetic: the usize→u32 cast
and the add/sub wrap modulo `2^32` (subtracting 1 is adding `2^32 - 1`). -/
def GVcfRecord.get_span (r : GVcfRecord) : Except VcfParseError (Nat × Nat) :=
  match (r.alleles.map List.length).max? with
  | none => .error (.RuntimeError ("There should be at least one allele".data))
  | some max_allele_len =>
    if max_allele_len = 1 then .ok (r.pos, r.pos)
    else .ok (r.pos, wrap32 (wrap32 (r.pos + wrap32 max_allele_len) + 4294967295))

/-- Constants of src/src/vcf_iterator.rs. -/
def MISSING_GT : Int := -1

/-- Minimum number of columns of a VCF line. -/
def VCF_MIN_COLUMNS : Nat := 9

/-- Column index of CHROM. -/
def CHROM_COLUMN : Nat := 0

/-- Column index of POS. -/
def POS_COLUMN : Nat := 1

/-- Column index of REF. -/
def REF_ALLELE_COLUMN : Nat := 3

/-- Column index of ALT. -/
def ALT_ALLELE_COLUMN : Nat := 4

/-- Column index of QUAL. -/
def QUAL_COLUMN : Nat := 5

/-- Column index of FORMAT. -/
def FORMAT_COLUMN : Nat := 8

/-- Column index of the first sample column. -/
def FIRST_SAMPLE_COLUMN : Nat := 9

/-- The `GT` FORMAT key. -/
def gtKey : Str := "GT".data

/-- The missing-value placeholder `.`. -/
def dotStr : Str := ".".data

/-- The literal `0` allele token. -/
def zeroStr : Str := "0".data

/-- A genotype-separator character (`/` or `|`). -/
def isGtSep (c : Char) : Bool := c = '/' || c = '|'

/-- src/src/vcf_iterator.rs `set_gt`: `genotypes[pos] = value` with
`pos = sample_idx * ploidy + allele_idx`.  Rust panics when `pos` is out of
bounds; that outcome is `none`. -/
def set_gt (genotypes : List Int) (sample_idx allele_idx ploidy : Nat) (value : Int) :
    Option (List Int) :=
  let pos := sample_idx * ploidy + allele_idx
  if pos < genotypes.length then some (genotypes.set pos value) else none

/-- src/src/vcf_iterator.rs `parse_allele`: `.` is the missing genotype,
anything else must parse as an `i32`. -/
def parse_allele (allele_str : Str) : Except VcfParseError Int :=
  if allele_str = dotStr then .ok MISSING_GT
  else
    match parseI32 allele_str with
    | some allele => .ok allele
    | none => .error (.InvalidAllele allele_str)

/-- src/src/vcf_iterator.rs `get_gt_index_from_format_field`: position of
`GT` among the colon-separated FORMAT sub-fields. -/
def get_gt_index_from_format_field (cols : List Str) (line : Str) :
    Except VcfParseError Nat :=
  match cols.get? FORMAT_COLUMN with
  | none => .error (.FormatColumnNotFound line)
  | some fmt =>
    match (splitChar ':' fmt).findIdx? (fun f => f = gtKey) with
    | none => .error (.MissingGtFieldInFormat line)
    | some idx => .ok idx

/-- The sample scan of src/src/vcf_iterator.rs `look_for_ploidy`: the first
sample whose GT sub-field is not `.` fixes the ploidy as the number of
`/`-or-`|`-separated pieces. -/
def lookForPloidySamples (gt_idx : Nat) (line : Str) : List Str → Except VcfParseError Nat
  | [] => .error (.ErrorFindingPloidy line)
  | sample_field :: rest =>
    match (splitChar ':' sample_field).get? gt_idx with
    | none => .error (.MissingGtField sample_field line)
    | some gt_str =>
      if gt_str = dotStr then lookForPloidySamples gt_idx line rest
      else .ok (splitPred isGtSep gt_str).length

/-- src/src/vcf_iterator.rs `look_for_ploidy`. -/
def look_for_ploidy (line : Str) : Except VcfParseError Nat := do
  let cols := splitChar '\t' (trimEnd line)
  let gt_idx ← get_gt_index_from_format_field cols line
  lookForPloidySamples gt_idx line (cols.drop FIRST_SAMPLE_COLUMN)

/-- The `VcfRecord` struct of src/src/vcf_iterator.rs.  The `qual: f32`
field is kept as validated source text: `none` is the NaN produced by the
`.` placeholder, `some s` records the numeral that parsed. -/
structure VcfRecord where
  chrom : Str
  pos : Nat
  alleles : List Str
  qual : Option Str
  genotypes : List Int
  deriving DecidableEq, Repr

/-- Result of a decoding step: a value, a typed error, or a Rust panic
(an out-of-bounds `Vec` write). -/
inductive Decode (α : Type)
  | ok (a : α)
  | error (e : VcfParseError)
  | panicked
  deriving DecidableEq, Repr

/-- The inner allele-token loop of `VcfRecord::from_line`: `0` advances the
slot index leaving the zero default, any other token is parsed by
`parse_allele` and written by `set_gt`.  Returns the updated matrix and the
final slot index. -/
def processAlleleTokens (sample_idx ploidy : Nat) :
    List Str → List Int → Nat → Decode (List Int × Nat)
  | [], genotypes, allele_idx => .ok (genotypes, allele_idx)
  | allele_str :: rest, genotypes, allele_idx =>
    if allele_str = zeroStr then
      processAlleleTokens sample_idx ploidy rest genotypes (allele_idx + 1)
    else
      match parse_allele allele_str with
      | .error e => .error e
      | .ok v =>
        match set_gt genotypes sample_idx allele_idx ploidy v with
        | none => .panicked
        | some g => processAlleleTokens sample_idx ploidy rest g (allele_idx + 1)

/-- The `gt_str == "."` branch of `VcfRecord::from_line`: write `MISSING_GT`
into the `ploidy` slots of the sample, low slot first; the last argument
counts the slots still to write. -/
def setMissingFrom (genotypes : List Int) (sample_idx ploidy allele_idx : Nat) :
    Nat → Option (List Int)
  | 0 => some genotypes
  | remaining + 1 =>
    match set_gt genotypes sample_idx allele_idx ploidy MISSING_GT with
    | none => none
    | some g => setMissingFrom g sample_idx ploidy (allele_idx + 1) remaining

/-- The per-sample loop of `VcfRecord::from_line` (src/src/vcf_iterator.rs
lines 133-179), including the reference fast path: when `GT` is the first
FORMAT sub-field and the whole sample field has `reference_gt` as a plain
string prefix, the sample is skipped outright.  Carries the enumeration
index, the genotype matrix and the observed ploidy. -/
def processSamples (gt_idx ploidy : Nat) (reference_gt line : Str) :
    List Str → Nat → List Int → Option Nat → Decode (List Int × Option Nat)
  | [], _, genotypes, observed => .ok (genotypes, observed)
  | sample_field :: rest, sample_idx, genotypes, observed =>
    if gt_idx = 0 && startsWith sample_field reference_gt then
      processSamples gt_idx ploidy reference_gt line rest (sample_idx + 1) genotypes observed
    else
      match (splitChar ':' sample_field).get? gt_idx with
      | none => .error (.MissingGtField sample_field line)
      | some gt_str =>
        if gt_str = reference_gt then
          processSamples gt_idx ploidy reference_gt line rest (sample_idx + 1) genotypes
            (some ploidy)
        else if gt_str = dotStr then
          match setMissingFrom genotypes sample_idx ploidy 0 ploidy with
          | none => .panicked
          | some g =>
            processSamples gt_idx ploidy reference_gt line rest (sample_idx + 1) g observed
        else
          match processAlleleTokens sample_idx ploidy (splitPred isGtSep gt_str) genotypes 0 with
          | .panicked => .panicked
          | .error e => .error e
          | .ok (g, allele_idx) =>
            match observed with
            | some value =>
              if value ≠ allele_idx then .error (.InconsistentPloidies line)
              else
                processSamples gt_idx ploidy reference_gt line rest (sample_idx + 1) g observed
            | none =>
              processSamples gt_idx ploidy reference_gt line rest (sample_idx + 1) g
                (some allele_idx)

/-- src/src/vcf_iterator.rs `VcfRecord::from_line`.  The column accesses at
indices 0..8 use `getD` because the `cols.len() < VCF_MIN_COLUMNS` guard has
already passed, so they coincide with Rust's panicking index. -/
def VcfRecord.from_line (num_samples ploidy : Nat) (reference_gt line : Str) :
    Decode VcfRecord :=
  let cols := splitChar '\t' (trimEnd line)
  if cols.length < VCF_MIN_COLUMNS then .error (.NotEnoughColumns line)
  else
    let ref_allele := cols.getD REF_ALLELE_COLUMN []
    let alt_alleles := cols.getD ALT_ALLELE_COLUMN []
    let alleles :=
      if alt_alleles = dotStr then [ref_allele] else ref_allele :: splitChar ',' alt_alleles
    let qualField := cols.getD QUAL_COLUMN []
    let qualRes : Except VcfParseError (Option Str) :=
      if qualField = dotStr then .ok none
      else if parseF32ok qualField then .ok (some qualField)
      else .error (.InvalidQuality qualField line)
    match qualRes with
    | .error e => .error e
    | .ok qual =>
      match get_gt_index_from_format_field cols line with
      | .error e => .error e
      | .ok gt_idx =>
        match
          processSamples gt_idx ploidy reference_gt line (cols.drop FIRST_SAMPLE_COLUMN) 0
            (List.replicate (num_samples * ploidy) 0) none
        with
        | .panicked => .panicked
        | .error e => .error e
        | .ok (genotypes, observed) =>
          let ploidyCheck : Except VcfParseError Unit :=
            match observed with
            | some value =>
              if value ≠ ploidy then .error (.DifferentObservedPloidy line value ploidy)
              else .ok ()
            | none => .ok ()
          match ploidyCheck with
          | .error e => .error e
          | .ok _ =>
            match parseU32 (cols.getD POS_COLUMN []) with
            | none => .error (.InvalidPosition (cols.getD POS_COLUMN []) line)
            | some pos => .ok ⟨cols.getD CHROM_COLUMN [], pos, alleles, qual, genotypes⟩

/-- The per-sample loop as the spec words it for the reference fast path
comparison: the GT sub-field of every sample is extracted and split; there
is no field-prefix skip.  Written from the spec, to be compared with
`processSamples` (claim C2); all other branches match the source loop. -/
def processSamplesGtExtract (gt_idx ploidy : Nat) (reference_gt line : Str) :
    List Str → Nat → List Int → Option Nat → Decode (List Int × Option Nat)
  | [], _, genotypes, observed => .ok (genotypes, observed)
  | sample_field :: rest, sample_idx, genotypes, observed =>
    match (splitChar ':' sample_field).get? gt_idx with
    | none => .error (.MissingGtField sample_field line)
    | some gt_str =>
      if gt_str = reference_gt then
        processSamplesGtExtract gt_idx ploidy reference_gt line rest (sample_idx + 1) genotypes
          (some ploidy)
      else if gt_str = dotStr then
        match setMissingFrom genotypes sample_idx ploidy 0 ploidy with
        | none => .panicked
        | some g =>
          processSamplesGtExtract gt_idx ploidy reference_gt line rest (sample_idx + 1) g observed
      else
        match processAlleleTokens sample_idx ploidy (splitPred isGtSep gt_str) genotypes 0 with
        | .panicked => .panicked
        | .error e => .error e
        | .ok (g, allele_idx) =>
          match observed with
          | some value =>
            if value ≠ allele_idx then .error (.InconsistentPloidies line)
            else
              processSamplesGtExtract gt_idx ploidy reference_gt line rest (sample_idx + 1) g
                observed
          | none =>
            processSamplesGtExtract gt_idx ploidy reference_gt line rest (sample_idx + 1) g
              (some allele_idx)

/-- `VcfRecord::from_line` with `processSamplesGtExtract` in place of the
source sample loop: the reference decode of claim C2, which extracts and
splits every sample's GT sub-field. -/
def VcfRecord.fromLineGtExtract (num_samples ploidy : Nat) (reference_gt line : Str) :
    Decode VcfRecord :=
  let cols := splitChar '\t' (trimEnd line)
  if cols.length < VCF_MIN_COLUMNS then .error (.NotEnoughColumns line)
  else
    let ref_allele := cols.getD REF_ALLELE_COLUMN []
    let alt_alleles := cols.getD ALT_ALLELE_COLUMN []
    let alleles :=
      if alt_alleles = dotStr then [ref_allele] else ref_allele :: splitChar ',' alt_alleles
    let qualField := cols.getD QUAL_COLUMN []
    let qualRes : Except VcfParseError (Option Str) :=
      if qualField = dotStr then .ok none
      else if parseF32ok qualField then .ok (some qualField)
      else .error (.InvalidQuality qualField line)
    match qualRes with
    | .error e => .error e
    | .ok qual =>
      match get_gt_index_from_format_field cols line with
      | .error e => .error e
      | .ok gt_idx =>
        match
          processSamplesGtExtract gt_idx ploidy reference_gt line
            (cols.drop FIRST_SAMPLE_COLUMN) 0 (List.replicate (num_samples * ploidy) 0) none
        with
        | .panicked => .panicked
        | .error e => .error e
        | .ok (genotypes, observed) =>
          let ploidyCheck : Except VcfParseError Unit :=
            match observed with
            | some value =>
              if value ≠ ploidy then .error (.DifferentObservedPloidy line value ploidy)
              else .ok ()
            | none => .ok ()
          match ploidyCheck with
          | .error e => .error e
          | .ok _ =>
            match parseU32 (cols.getD POS_COLUMN []) with
            | none => .error (.InvalidPosition (cols.getD POS_COLUMN []) line)
            | some pos => .ok ⟨cols.getD CHROM_COLUMN [], pos, alleles, qual, genotypes⟩

/-- Outcome of one `Iterator::next` call on the VCF iterator
(`Option<VcfResult<VcfRecord>>`), with `panicked` for an aborting
out-of-bounds write inside the decode. -/
inductive VNext
  | eof
  | ok (r : VcfRecord)
  | error (e : VcfParseError)
  | panicked
  deriving DecidableEq, Repr

/-- Injection of a decode result into a `next` outcome. -/
def vResultToNext : Decode VcfRecord → VNext
  | .ok r => .ok r
  | .error e => .error e
  | .panicked => .panicked

/-- State of `VcfRecordIterator` (src/src/vcf_iterator.rs lines 206-213). -/
structure VcfIterState where
  lines : List Str
  sec : VcfSection
  num_samples : Nat
  ploidy : Nat
  reference_gt : Str
  deriving DecidableEq, Repr

/-- `VcfRecordIterator::new` via `from_reader`. -/
def VcfIterState.init (lines : List Str) : VcfIterState := ⟨lines, .Header, 0, 0, []⟩

/-- src/src/vcf_iterator.rs `process_first_variant_line` on the given line
and current field values: infer the ploidy (on failure the fields and the
section are left unchanged), build `reference_gt` as `"0"` repeated `ploidy`
times joined by `/`, move to `Body`, and decode the same line as the first
record.  Returns the result together with the new ploidy, reference
genotype and section. -/
def processFirstVariantLine (num_samples ploidy0 : Nat) (reference_gt0 line : Str) :
    VNext × Nat × Str × VcfSection :=
  match look_for_ploidy line with
  | .error e => (.error e, ploidy0, reference_gt0, .Header)
  | .ok ploidy =>
    let reference_gt := List.intercalate ['/'] (List.replicate ploidy zeroStr)
    (vResultToNext (VcfRecord.from_line num_samples ploidy reference_gt line),
      ploidy, reference_gt, .Body)

/-- Effect of one header-loop iteration on `num_samples` when the current
line is a `##` or `#CHROM` line: meta lines leave it unchanged; a `#CHROM`
line with at least `VCF_MIN_COLUMNS` columns runs `process_chrom_line` and
sets it to the column count minus `VCF_MIN_COLUMNS`; a shorter `#CHROM`
line makes `process_chrom_line` build
`Some(Err(NotEnoughColumnsInChromLine))`, a value the caller's discarding
`match ()` expression drops, so `num_samples` is left unchanged there
too. -/
def chromUpdate (line : Str) (num_samples : Nat) : Nat :=
  if startsWith line metaMarker then num_samples
  else
    let fields := splitChar '\t' (trimEnd line)
    if fields.length < VCF_MIN_COLUMNS then num_samples
    else fields.length - VCF_MIN_COLUMNS

/-- The loop of `VcfRecordIterator::process_header_and_first_variant`
(src/src/vcf_iterator.rs lines 266-285).  The `match ()` expression computes
a value that is then discarded: a `##` line contributes `None`, a `#CHROM`
line runs `process_chrom_line` (see `chromUpdate`), and any other line
returns `process_first_variant_line`.  After the discarded `match`, the
next line is read; EOF yields `None`. -/
def processHeaderVcf : Str → List Str → Nat → Nat → Str → VNext × VcfIterState
  | line, [], num_samples, ploidy, reference_gt =>
    if startsWith line metaMarker || startsWith line chromMarker then
      (.eof, ⟨[], .Header, chromUpdate line num_samples, ploidy, reference_gt⟩)
    else
      let r := processFirstVariantLine num_samples ploidy reference_gt line
      (r.1, ⟨[], r.2.2.2, num_samples, r.2.1, r.2.2.1⟩)
  | line, l :: ls, num_samples, ploidy, reference_gt =>
    if startsWith line metaMarker || startsWith line chromMarker then
      processHeaderVcf l ls (chromUpdate line num_samples) ploidy reference_gt
    else
      let r := processFirstVariantLine num_samples ploidy reference_gt line
      (r.1, ⟨l :: ls, r.2.2.2, num_samples, r.2.1, r.2.2.1⟩)

/-- `Iterator::next` for `VcfRecordIterator` (src/src/vcf_iterator.rs lines
291-303): clear the line, read one line (EOF yields `None`), then in `Body`
decode it with the session parameters and in `Header` run the
header-processing call. -/
def VcfIterState.next (s : VcfIterState) : VNext × VcfIterState :=
  match s.lines with
  | [] => (.eof, s)
  | l :: ls =>
    match s.sec with
    | .Body =>
      (vResultToNext (VcfRecord.from_line s.num_samples s.ploidy s.reference_gt l),
        ⟨ls, s.sec, s.num_samples, s.ploidy, s.reference_gt⟩)
    | .Header => processHeaderVcf l ls s.num_samples s.ploidy s.reference_gt

/-! Concrete inputs used by the theorems below. -/

/-- A ploidy-2 reference genotype string. -/
def refGt2 : Str := "0/0".data

/-- A meta-header line. -/
def metaOnlyLine : Str := "##x\n".data

/-- A complete column-header line with one sample column. -/
def chromFullLine : Str := "#CHROM\tPOS\tID\tREF\tALT\tQUAL\tFILTER\tINFO\tFORMAT\tS1\n".data

/-- A column-header line with fewer than `VCF_MIN_COLUMNS` columns. -/
def shortChromLine : Str := "#CHROM\tPOS\n".data

/-- A gVCF data line at position 10. -/
def gLine10 : Str := "1\t10\t.\tA\tT\t50\n".data

/-- A gVCF data line at position 20. -/
def gLine20 : Str := "1\t20\t.\tA\tC\t50\n".data

/-- The record decoded from `gLine10`. -/
def gRec10 : GVcfRecord := ⟨['1'], 10, [['A'], ['T']]⟩

/-- The record decoded from `gLine20`. -/
def gRec20 : GVcfRecord := ⟨['1'], 20, [['A'], ['C']]⟩

/-- A well-formed two-record gVCF input. -/
def gLinesC1 : List Str := [metaOnlyLine, chromFullLine, gLine10, gLine20]

/-- A gVCF line with too few fields. -/
def badGvcfLine : Str := "1\n".data

/-- A gVCF input whose first data line is malformed. -/
def gLinesC4 : List Str := [metaOnlyLine, chromFullLine, badGvcfLine]

/-- A VCF data line whose only sample field is `0/01`: the ploidy-2
reference string `0/0` is a plain prefix of it, but its GT genotype is not
the reference genotype. -/
def c2Line : Str := "1\t100\t.\tA\tT\t50\tPASS\tx\tGT\t0/01\n".data

/-- What the source decoder produces on `c2Line` (sample skipped). -/
def c2FastRec : VcfRecord := ⟨['1'], 100, [['A'], ['T']], some ['5', '0'], [0, 0]⟩

/-- What the GT-extracting decode produces on `c2Line`. -/
def c2ExtractRec : VcfRecord := ⟨['1'], 100, [['A'], ['T']], some ['5', '0'], [0, 1]⟩

/-- A three-sample ploidy-2 VCF line whose last sample reports `1/2/3`. -/
def c3Line : Str := "1\t100\t.\tA\tT\t50\tPASS\tx\tGT\t0/1\t0/1\t1/2/3\n".data

/-- A three-sample ploidy-2 VCF line whose first sample reports `1/2/3`. -/
def c3LineMid : Str := "1\t100\t.\tA\tT\t50\tPASS\tx\tGT\t1/2/3\t0/1\t0/1\n".data

/-- A VCF data line with one sample field `0/1`. -/
def vcfBodyLine : Str := "1\t100\t.\tA\tT\t50\tPASS\tx\tGT\t0/1\n".data

/-- A three-line VCF input: meta line, column-header line, one data line. -/
def vcfLinesC7 : List Str := [metaOnlyLine, chromFullLine, vcfBodyLine]

/-- The record the C7 session emits. -/
def vRecC7 : VcfRecord := ⟨['1'], 100, [['A'], ['T']], some ['5', '0'], [0, 1]⟩

/-- The iterator state after the C7 session's first `next`. -/
def vStateC7 : VcfIterState := ⟨[], .Body, 1, 2, ['0', '/', '0']⟩

/-- The message of `get_span`'s defensive error. -/
def noAlleleMsg : Str := "There should be at least one allele".data

/-! Theorems. -/

/-- C1: refuting evaluation.  On a well-formed gVCF input, `fill_buffer 1`
leaves the record at position 10 in the lookahead buffer, yet the next
`next` call returns the record at position 20 read fresh from the reader:
the buffer is never drained, so buffered records do not reach the caller
before fresh lines, contrary to the claim. -/
theorem c1_buffer_never_drained :
    (GVcfIterState.fill_buffer 10 1 (GVcfIterState.init gLinesC1)).1 = .ok 1 ∧
    (GVcfIterState.fill_buffer 10 1 (GVcfIterState.init gLinesC1)).2.buffer = [gRec10] ∧
    (GVcfIterState.next 10
      (GVcfIterState.fill_buffer 10 1 (GVcfIterState.init gLinesC1)).2).1 = .ok gRec20 ∧
    gRec20 ≠ gRec10 := by decide

/-- C2: refuting evaluation.  The source fast path skips any sample field
that merely begins with `reference_gt` as a plain string prefix: on the
sample field `0/01` under ploidy 2 it decodes the genotype matrix `[0, 0]`,
while the decode that extracts and splits every sample's GT sub-field
decodes `[0, 1]`, so the skip changes the decoded matrix. -/
theorem c2_fast_path_changes_decode :
    VcfRecord.from_line 1 2 refGt2 c2Line = .ok c2FastRec ∧
    VcfRecord.fromLineGtExtract 1 2 refGt2 c2Line = .ok c2ExtractRec ∧
    c2FastRec.genotypes = [0, 0] ∧ c2ExtractRec.genotypes = [0, 1] ∧
    c2FastRec ≠ c2ExtractRec := by decide

/-- C3: refuting evaluation.  When the last sample of a ploidy-2 line
reports the three-token genotype `1/2/3`, the third `set_gt` write lands at
index `num_samples * ploidy`, out of bounds — a Rust panic, not the typed
ploidy error.  When the over-long genotype is in a non-last sample the
in-bounds writes let the typed `InconsistentPloidies` error be reached. -/
theorem c3_overlong_genotype_panics :
    VcfRecord.from_line 3 2 refGt2 c3Line = .panicked ∧
    VcfRecord.from_line 3 2 refGt2 c3LineMid = .error (.InconsistentPloidies c3LineMid) := by
  decide

/-- C4: refuting evaluation.  A `#CHROM` line with fewer than
`VCF_MIN_COLUMNS` columns makes VCF iteration return end-of-sequence with
the built `NotEnoughColumnsInChromLine` error discarded; and gVCF
`fill_buffer` returns `Ok(0)` although processing the header and first
record produced the `GVCFLineNotEnoughFields` error (third conjunct), which
the `if let Some(Ok(_))` pattern silently drops. -/
theorem c4_failures_not_surfaced :
    (VcfIterState.init [shortChromLine]).next = (.eof, ⟨[], .Header, 0, 0, []⟩) ∧
    (GVcfIterState.fill_buffer 10 1 (GVcfIterState.init gLinesC4)).1 = .ok 0 ∧
    GVcfRecord.from_line badGvcfLine = .error .GVCFLineNotEnoughFields := by decide

/-- When the current line does not start with `##`, the gVCF header loop
spins forever: with any amount of fuel it ends in `diverged`, with the state
unchanged. -/
theorem gHeaderLoop_no_meta_spins (fuel : Nat) :
    ∀ (line : Str) (rest : List Str), startsWith line metaMarker = false →
      gHeaderLoop fuel line rest = (.diverged, rest, .Header) := by
  induction fuel with
  | zero => intro line rest _; rfl
  | succ n ih =>
    intro line rest h
    unfold gHeaderLoop
    simp only [h, Bool.false_eq_true, if_false]
    exact ih line rest h

/-- C5: refuting theorem.  On a gVCF input whose first line does not begin
with the `##` meta-prefix (here the bare `#CHROM` line), the header loop of
`process_header_and_first_variant` repeats with unchanged state, so `next`
and `fill_buffer` never terminate: whatever the fuel, the run ends
`diverged`. -/
theorem c5_header_loop_diverges (fuel : Nat) :
    (GVcfIterState.next fuel (GVcfIterState.init [shortChromLine])).1 = .diverged ∧
    (GVcfIterState.fill_buffer (fuel + 1) 1 (GVcfIterState.init [shortChromLine])).1 =
      .diverged := by
  have hspin := gHeaderLoop_no_meta_spins fuel shortChromLine [] (by decide)
  constructor
  · simp [GVcfIterState.next, GVcfIterState.init, hspin]
  · simp [GVcfIterState.fill_buffer, GVcfIterState.init, fillBufferLoop, hspin]

/-- C6: counterexample.  The token `-1` is neither `.`, nor `0`, nor a
non-negative integer, yet `parse_allele` accepts it (Rust `parse::<i32>` is
signed) and stores the missing-data sentinel value instead of failing with
`InvalidAllele`. -/
theorem c6_negative_token_accepted :
    parse_allele ("-1".data) = .ok (-1) ∧
    parse_allele ("-1".data) ≠ .error (.InvalidAllele ("-1".data)) := by decide

/-- C6: amended claim.  `.` maps to the missing sentinel `-1`; a `0` token
leaves the zero default and advances the slot index; any token that parses
as a signed 32-bit integer (including negative or `+`-signed ones) is
stored as that value; and exactly the tokens that fail i32 parsing make the
decode fail with `InvalidAllele{allele}`. -/
theorem c6_tokens_parse_as_i32 (s : Str) (v : Int) :
    (parse_allele s = .ok v ↔ (s = dotStr ∧ v = -1) ∨ (s ≠ dotStr ∧ parseI32 s = some v)) ∧
    (parse_allele s = .error (.InvalidAllele s) ↔ s ≠ dotStr ∧ parseI32 s = none) ∧
    (∀ (sample_idx ploidy : Nat) (rest : List Str) (genotypes : List Int) (allele_idx : Nat),
      processAlleleTokens sample_idx ploidy (zeroStr :: rest) genotypes allele_idx =
        processAlleleTokens sample_idx ploidy rest genotypes (allele_idx + 1)) := by
  refine ⟨?_, ?_, ?_⟩
  · by_cases h : s = dotStr
    · simp [parse_allele, h, MISSING_GT, eq_comm]
    · cases hp : parseI32 s <;> simp [parse_allele, h, hp, eq_comm]
  · by_cases h : s = dotStr
    · simp [parse_allele, h, MISSING_GT]
    · cases hp : parseI32 s <;> simp [parse_allele, h, hp]
  · intro sample_idx ploidy rest genotypes allele_idx
    simp [processAlleleTokens]

/-- C6: witness.  The amended characterization applied at the concrete
token `-7`. -/
theorem c6_witness : parse_allele ("-7".data) = .ok (-7) :=
  ((c6_tokens_parse_as_i32 ("-7".data) (-7)).1).mpr (Or.inr ⟨by decide, by decide⟩)

/-- A successful `set_gt` write preserves the matrix length. -/
theorem set_gt_length {genotypes g : List Int} {si ai p : Nat} {v : Int}
    (h : set_gt genotypes si ai p v = some g) : g.length = genotypes.length := by
  simp only [set_gt] at h
  split at h
  · simp only [Option.some.injEq] at h
    subst h
    simp
  · exact absurd h (by simp)

/-- Filling a sample's slots with the missing sentinel preserves the matrix
length. -/
theorem setMissingFrom_length :
    ∀ (k : Nat) (genotypes : List Int) (si p ai : Nat) (g : List Int),
      setMissingFrom genotypes si p ai k = some g → g.length = genotypes.length := by
  intro k
  induction k with
  | zero =>
    intro genotypes si p ai g h
    simp only [setMissingFrom, Option.some.injEq] at h
    rw [← h]
  | succ n ih =>
    intro genotypes si p ai g h
    unfold setMissingFrom at h
    split at h
    · exact absurd h (by simp)
    · rename_i g1 hset
      exact (ih _ _ _ _ _ h).trans (set_gt_length hset)

/-- The allele-token loop preserves the matrix length. -/
theorem processAlleleTokens_length :
    ∀ (tokens : List Str) (si p : Nat) (genotypes : List Int) (ai : Nat) (g : List Int) (k : Nat),
      processAlleleTokens si p tokens genotypes ai = .ok (g, k) → g.length = genotypes.length := by
  intro tokens
  induction tokens with
  | nil =>
    intro si p genotypes ai g k h
    simp only [processAlleleTokens, Decode.ok.injEq, Prod.mk.injEq] at h
    rw [← h.1]
  | cons t rest ih =>
    intro si p genotypes ai g k h
    unfold processAlleleTokens at h
    split at h
    · exact ih _ _ _ _ _ _ h
    · split at h
      · exact absurd h (by simp)
      · split at h
        · exact absurd h (by simp)
        · rename_i g1 hset
          exact (ih _ _ _ _ _ _ h).trans (set_gt_length hset)

/-- The per-sample loop preserves the matrix length. -/
theorem processSamples_length :
    ∀ (samples : List Str) (gt_idx ploidy : Nat) (reference_gt line : Str) (si : Nat)
      (genotypes : List Int) (obs : Option Nat) (g : List Int) (obs2 : Option Nat),
      processSamples gt_idx ploidy reference_gt line samples si genotypes obs = .ok (g, obs2) →
      g.length = genotypes.length := by
  intro samples
  induction samples with
  | nil =>
    intro gt_idx p rg line si genotypes obs g obs2 h
    simp only [processSamples, Decode.ok.injEq, Prod.mk.injEq] at h
    rw [← h.1]
  | cons sf rest ih =>
    intro gt_idx p rg line si genotypes obs g obs2 h
    unfold processSamples at h
    split at h
    · exact ih _ _ _ _ _ _ _ _ _ h
    · split at h
      · exact absurd h (by simp)
      · split at h
        · exact ih _ _ _ _ _ _ _ _ _ h
        · split at h
          · split at h
            · exact absurd h (by simp)
            · rename_i g1 hset
              exact (ih _ _ _ _ _ _ _ _ _ h).trans (setMissingFrom_length _ _ _ _ _ _ hset)
          · split at h
            · exact absurd h (by simp)
            · exact absurd h (by simp)
            · rename_i g1 k htok
              split at h
              · split at h
                · exact absurd h (by simp)
                · exact (ih _ _ _ _ _ _ _ _ _ h).trans
                    (processAlleleTokens_length _ _ _ _ _ _ _ htok)
              · exact (ih _ _ _ _ _ _ _ _ _ h).trans
                  (processAlleleTokens_length _ _ _ _ _ _ _ htok)

/-- Every record `VcfRecord::from_line` returns carries a genotype matrix of
exactly `num_samples * ploidy` cells. -/
theorem from_line_ok_length {num_samples ploidy : Nat} {reference_gt line : Str}
    {r : VcfRecord}
    (h : VcfRecord.from_line num_samples ploidy reference_gt line = .ok r) :
    r.genotypes.length = num_samples * ploidy := by
  simp only [VcfRecord.from_line] at h
  split at h
  · exact absurd h (by simp)
  · split at h
    · exact absurd h (by simp)
    · split at h
      · exact absurd h (by simp)
      · split at h
        · exact absurd h (by simp)
        · exact absurd h (by simp)
        · rename_i genotypes observed hps
          split at h
          · exact absurd h (by simp)
          · split at h
            · exact absurd h (by simp)
            · simp only [Decode.ok.injEq] at h
              subst h
              simpa using processSamples_length _ _ _ _ _ _ _ _ _ _ hps

/-- When `process_first_variant_line` returns a record, its matrix length is
`num_samples` times the ploidy the call just fixed. -/
theorem processFirstVariantLine_ok_length {num_samples ploidy0 : Nat} {rg0 line : Str}
    {r : VcfRecord}
    (h : (processFirstVariantLine num_samples ploidy0 rg0 line).1 = .ok r) :
    r.genotypes.length =
      num_samples * (processFirstVariantLine num_samples ploidy0 rg0 line).2.1 := by
  unfold processFirstVariantLine at h ⊢
  cases hlp : look_for_ploidy line with
  | error e => rw [hlp] at h; simp at h
  | ok pl =>
    rw [hlp] at h
    dsimp only at h ⊢
    cases hfl : VcfRecord.from_line num_samples pl
        (List.intercalate ['/'] (List.replicate pl zeroStr)) line <;>
      simp [vResultToNext, hfl] at h
    subst h
    exact from_line_ok_length hfl

/-- Along the VCF header loop, an emitted record's matrix length is the
product of the final state's `num_samples` and `ploidy`. -/
theorem processHeaderVcf_ok_length :
    ∀ (rest : List Str) (line : Str) (num_samples ploidy : Nat) (reference_gt : Str)
      (r : VcfRecord) (s2 : VcfIterState),
      processHeaderVcf line rest num_samples ploidy reference_gt = (.ok r, s2) →
      r.genotypes.length = s2.num_samples * s2.ploidy := by
  intro rest
  induction rest with
  | nil =>
    intro line ns p rg r s2 h
    unfold processHeaderVcf at h
    split at h
    · exact absurd h (by simp)
    · simp only [Prod.mk.injEq] at h
      obtain ⟨h1, h2⟩ := h
      subst h2
      exact processFirstVariantLine_ok_length h1
  | cons l ls ih =>
    intro line ns p rg r s2 h
    unfold processHeaderVcf at h
    split at h
    · exact ih _ _ _ _ _ _ h
    · simp only [Prod.mk.injEq] at h
      obtain ⟨h1, h2⟩ := h
      subst h2
      exact processFirstVariantLine_ok_length h1

/-- C7: every record an iterator session emits has
`genotypes.length = num_samples * ploidy` for the session values fixed
during header processing, and a `Body`-section `next` call leaves
`num_samples`, `ploidy` and `reference_gt` unchanged for the rest of the
session. -/
theorem c7_genotypes_length (s : VcfIterState) (r : VcfRecord) (s2 : VcfIterState)
    (h : s.next = (.ok r, s2)) :
    r.genotypes.length = s2.num_samples * s2.ploidy ∧
    (s.sec = .Body → s2.num_samples = s.num_samples ∧ s2.ploidy = s.ploidy ∧
      s2.reference_gt = s.reference_gt ∧ s2.sec = .Body) := by
  unfold VcfIterState.next at h
  cases hl : s.lines with
  | nil =>
    rw [hl] at h
    exact absurd h (by simp)
  | cons l ls =>
    rw [hl] at h
    cases hsec : s.sec with
    | Body =>
      rw [hsec] at h
      simp only [Prod.mk.injEq] at h
      obtain ⟨h1, h2⟩ := h
      subst h2
      cases hfl : VcfRecord.from_line s.num_samples s.ploidy s.reference_gt l <;>
        simp [vResultToNext, hfl] at h1
      subst h1
      exact ⟨from_line_ok_length hfl, fun _ => ⟨rfl, rfl, rfl, rfl⟩⟩
    | Header =>
      rw [hsec] at h
      refine ⟨processHeaderVcf_ok_length ls l _ _ _ r s2 h, fun hb => ?_⟩
      exact absurd hb (by simp)

/-- C7: witness.  A session over a meta line, a one-sample column-header
line and the data line `0/1` emits a two-cell matrix with
`num_samples = 1` and `ploidy = 2`. -/
theorem c7_witness : vRecC7.genotypes.length = vStateC7.num_samples * vStateC7.ploidy :=
  (c7_genotypes_length (VcfIterState.init vcfLinesC7) vRecC7 vStateC7 (by decide)).1


/-- Folding `max` over a list of ones from a one gives one. -/
theorem foldl_max_ones : ∀ (xs : List Nat) (a : Nat),
    (∀ x ∈ xs, x = 1) → a = 1 → xs.foldl max a = 1 := by
  intro xs
  induction xs with
  | nil => intro a _ ha; simpa using ha
  | cons x t ih =>
    intro a h ha
    have hx : x = 1 := h x (by simp)
    simp only [List.foldl_cons]
    exact ih (max a x) (fun y hy => h y (by simp [hy])) (by simp [ha, hx])

/-- The maximum of a non-empty list whose elements are all 1 is 1. -/
theorem max?_all_ones (xs : List Nat) (hne : xs ≠ []) (h : ∀ x ∈ xs, x = 1) :
    xs.max? = some 1 := by
  cases xs with
  | nil => exact absurd rfl hne
  | cons x t =>
    show some (t.foldl max x) = some 1
    exact congrArg some (foldl_max_ones t x (fun y hy => h y (by simp [hy])) (h x (by simp)))

/-- The wrapped u32 span arithmetic coincides with the plain
`pos + L - 1` whenever that value exists and fits. -/
theorem wrap32_span {pos L : Nat} (_hpos : pos < 4294967296) (h1 : 1 ≤ pos + L)
    (h2 : pos + L ≤ 4294967296) :
    wrap32 (wrap32 (pos + wrap32 L) + 4294967295) = pos + L - 1 := by
  unfold wrap32
  omega

/-- C8: `get_span` returns the defensive `RuntimeError` on an empty allele
list; `(pos, pos)` when every allele has length 1; and
`(pos, pos + L - 1)` otherwise, `L` the maximum allele length (under the
u32 bounds that make that expression meaningful). -/
theorem c8_get_span (r : GVcfRecord) :
    (r.alleles = [] → r.get_span = .error (.RuntimeError noAlleleMsg)) ∧
    (r.alleles ≠ [] → (∀ a ∈ r.alleles, a.length = 1) → r.get_span = .ok (r.pos, r.pos)) ∧
    (∀ L : Nat, (r.alleles.map List.length).max? = some L →
      ¬(∀ a ∈ r.alleles, a.length = 1) → r.pos < 4294967296 → 1 ≤ r.pos + L →
      r.pos + L ≤ 4294967296 → r.get_span = .ok (r.pos, r.pos + L - 1)) := by
  refine ⟨?_, ?_, ?_⟩
  · intro he
    simp [GVcfRecord.get_span, he, noAlleleMsg, List.max?]
  · intro hne hall
    have hmax : (r.alleles.map List.length).max? = some 1 := by
      refine max?_all_ones _ (by simpa using hne) ?_
      intro x hx
      obtain ⟨a, ha, rfl⟩ := List.mem_map.mp hx
      exact hall a ha
    simp [GVcfRecord.get_span, hmax]
  · intro L hmax hnall hpos h1 h2
    unfold GVcfRecord.get_span
    rw [hmax]
    dsimp only
    by_cases hL : L = 1
    · subst hL
      simp
    · rw [if_neg hL, wrap32_span hpos h1 h2]

/-- C8: witness.  The spec's own examples: alleles `[A, ATT]` at position
10 span `(10, 12)`; single-base alleles span `(10, 10)`. -/
theorem c8_witness :
    GVcfRecord.get_span ⟨['c'], 10, [['A'], ['A', 'T', 'T']]⟩ = .ok (10, 12) ∧
    GVcfRecord.get_span ⟨['c'], 10, [['A'], ['C']]⟩ = .ok (10, 10) := by
  constructor
  · exact (c8_get_span ⟨['c'], 10, [['A'], ['A', 'T', 'T']]⟩).2.2 3 (by decide) (by decide)
      (by decide) (by decide) (by decide)
  · exact (c8_get_span ⟨['c'], 10, [['A'], ['C']]⟩).2.1 (by decide) (by decide)

/-- C9: the sniffer returns `InsufficientBytes{got, need: 2}` on fewer than
2 bytes, and otherwise `true` exactly when the first two bytes are
`0x1F 0x8B`. -/
theorem c9_magic_bytes (bs : List Nat) :
    (bs.length < 2 → are_gzipped_magic_bytes bs = .error (.InsufficientBytes bs.length 2)) ∧
    (¬ bs.length < 2 →
      (are_gzipped_magic_bytes bs = .ok true ↔ bs.getD 0 0 = 0x1f ∧ bs.getD 1 0 = 0x8b) ∧
      (are_gzipped_magic_bytes bs = .ok false ↔ ¬(bs.getD 0 0 = 0x1f ∧ bs.getD 1 0 = 0x8b))) := by
  constructor
  · intro h
    simp [are_gzipped_magic_bytes, h]
  · intro h
    constructor
    · simp [are_gzipped_magic_bytes, h, Bool.and_eq_true, beq_iff_eq]
    · simp [are_gzipped_magic_bytes, h, Bool.and_eq_true, beq_iff_eq]

/-- C9: witness.  The characterization applied to a gzip header, a plain
text prefix, and a 1-byte stream. -/
theorem c9_witness :
    are_gzipped_magic_bytes [31, 139] = .ok true ∧
    are_gzipped_magic_bytes [65, 66] = .ok false ∧
    are_gzipped_magic_bytes [31] = .error (.InsufficientBytes 1 2) :=
  ⟨((c9_magic_bytes [31, 139]).2 (by decide)).1.mpr (by decide),
   ((c9_magic_bytes [65, 66]).2 (by decide)).2.mpr (by decide),
   (c9_magic_bytes [31]).1 (by decide)⟩

/-- When every line is a `##` meta line or a `#CHROM` line, the VCF header
loop reaches end of stream and returns `None`. -/
theorem processHeaderVcf_header_only :
    ∀ (rest : List Str) (line : Str) (num_samples ploidy : Nat) (reference_gt : Str),
      (startsWith line metaMarker = true ∨ startsWith line chromMarker = true) →
      (∀ l ∈ rest, startsWith l metaMarker = true ∨ startsWith l chromMarker = true) →
      (processHeaderVcf line rest num_samples ploidy reference_gt).1 = .eof := by
  intro rest
  induction rest with
  | nil =>
    intro line ns p rg hline _
    unfold processHeaderVcf
    have hb : (startsWith line metaMarker || startsWith line chromMarker) = true := by
      rcases hline with h | h <;> simp [h]
    rw [if_pos hb]
  | cons l ls ih =>
    intro line ns p rg hline hrest
    unfold processHeaderVcf
    have hb : (startsWith line metaMarker || startsWith line chromMarker) = true := by
      rcases hline with h | h <;> simp [h]
    rw [if_pos hb]
    exact ih l _ _ _ (hrest l (by simp)) (fun x hx => hrest x (by simp [hx]))

/-- C10: a VCF input that ends while still in the `Header` section — empty,
or consisting only of `##` meta lines and `#CHROM` column-header lines —
makes `next` return end-of-sequence, not an error; the gVCF flavor instead
returns `BrokenHeader` at EOF inside its header loop. -/
theorem c10_vcf_header_eof :
    (∀ lines : List Str,
      (∀ l ∈ lines, startsWith l metaMarker = true ∨ startsWith l chromMarker = true) →
      ((VcfIterState.init lines).next).1 = .eof) ∧
    (GVcfIterState.next 5 (GVcfIterState.init [metaOnlyLine])).1 = .error .BrokenHeader := by
  constructor
  · intro lines h
    cases lines with
    | nil => rfl
    | cons l ls =>
      show (processHeaderVcf l ls 0 0 []).1 = .eof
      exact processHeaderVcf_header_only ls l 0 0 [] (h l (by simp))
        (fun x hx => h x (by simp [hx]))
  · decide

/-- C10: witness.  A meta line followed by a (short) `#CHROM` line with no
data line yields `None`. -/
theorem c10_witness : ((VcfIterState.init [metaOnlyLine, shortChromLine]).next).1 = .eof :=
  (c10_vcf_header_eof).1 [metaOnlyLine, shortChromLine] (by decide)

end GvcfParserRs
